import Mathlib

/-!
Verification of the taigi-translate-bot message handler (src/main.rs).

The program is a chat bot: on an inbound message it queries three external
dictionary sources (TaigiTV HTML, Sutian HTML, iTaigi JSON), normalizes each
response into a list of display lines, aggregates them, and replies.

Shallow embedding: network and parsing effects are replaced by explicit
fixtures.  A `Fetch α` value is the outcome of the HTTP GET plus body read:
transport failure, body-read failure, or a successfully read body whose
parsed shape is `α`.  For the two HTML adapters the fixture carries the
elements matched by the fixed CSS selectors of the source (the selectors are
string literals that always compile, so the selector-compile error paths are
dead); for the JSON adapter it carries the parse outcome of the body as a
JSON tree.  Rust string operations (`trim`, `lines().next()`, `starts_with`,
`join`) are modelled as executable functions on the character data.
-/

/-- Model of Rust `str::starts_with` on the character data. -/
def rStartsWith (s pre : String) : Bool :=
  pre.data.isPrefixOf s.data

/-- ASCII whitespace test (model of the whitespace class used by `str::trim`). -/
def isWs (c : Char) : Bool :=
  c = ' ' || c = '\t' || c = '\n' || c = '\r'

/-- Model of Rust `str::trim`: drop leading and trailing whitespace. -/
def rTrim (s : String) : String :=
  String.mk (((s.data.dropWhile isWs).reverse.dropWhile isWs).reverse)

/-- Model of Rust `.lines().next().unwrap_or("")`: the text up to the first
newline (the whole string when there is none, empty for the empty string). -/
def firstLine (s : String) : String :=
  String.mk (s.data.takeWhile (fun c => c ≠ '\n'))

/-- Outcome of one HTTP GET together with reading its body: transport
failure, body-read failure, or a body parsed into shape `α`. -/
inductive Fetch (α : Type) where
  | netErr : Fetch α
  | readErr : Fetch α
  | ok (body : α) : Fetch α

/-- An HTML element as the adapters consume it: its collected text and its
optional `href` attribute. -/
structure Elem where
  text : String
  href : Option String
deriving DecidableEq

/-- The three-branch URL resolution of `search_taigitv` / `search_sutian`:
absolute already, root-relative, or relative to the site root. -/
def resolveUrl (base href : String) : String :=
  if rStartsWith href "http" then href
  else if rStartsWith href "/" then base ++ href
  else base ++ "/" ++ href

def taigitvBase : String := "https://www.taigitv.org.tw"

def sutianBase : String := "https://sutian.moe.edu.tw"

/-- Parsing phase of `search_taigitv`: the fixture lists the anchors matched
by the selector `.btngaa .h3 a`, in document order. -/
def taigitvResults (anchors : List Elem) : List String :=
  (anchors.filterMap (fun e =>
    e.href.map (fun href =>
      "📺 " ++ rTrim e.text ++ " - " ++ resolveUrl taigitvBase href))).take 3

/-- `search_taigitv` over a fetch fixture. -/
def search_taigitv (fetch : Fetch (List Elem)) : Except String (List String) :=
  match fetch with
  | .netErr => .error "Error fetching from TaigiTV"
  | .readErr => .error "Error reading response from TaigiTV"
  | .ok anchors => .ok (taigitvResults anchors)

/-- The Sutian document as its four fixed selectors see it: the first match
of the mobile link / mobile pronunciation-cell selectors and of the desktop
link / desktop pronunciation-cell selectors (`None` when nothing matches). -/
structure SutianDoc where
  mobileLink : Option Elem
  mobilePron : Option String
  desktopLink : Option Elem
  desktopPron : Option String
deriving DecidableEq

/-- One Sutian table row: trim the word, take the trimmed first line of the
pronunciation cell, resolve the URL, and emit the line only when both the
word and the pronunciation are non-empty. -/
def sutianRow (link : Elem) (pronCell : String) : List String :=
  let word := rTrim link.text
  let href := link.href.getD ""
  let pronunciation := rTrim (firstLine (rTrim pronCell))
  let fullUrl := resolveUrl sutianBase href
  if word ≠ "" ∧ pronunciation ≠ "" then
    ["📚 " ++ word ++ " [" ++ pronunciation ++ "] - " ++ fullUrl]
  else []

/-- Parsing phase of `search_sutian`: use the mobile pair when both mobile
selectors matched, otherwise fall back to the desktop pair. -/
def sutianResults (doc : SutianDoc) : List String :=
  match doc.mobileLink, doc.mobilePron with
  | some link, some pron => sutianRow link pron
  | _, _ =>
    match doc.desktopLink, doc.desktopPron with
    | some link, some pron => sutianRow link pron
    | _, _ => []

/-- `search_sutian` over a fetch fixture. -/
def search_sutian (fetch : Fetch SutianDoc) : Except String (List String) :=
  match fetch with
  | .netErr => .error "Error fetching from Sutian"
  | .readErr => .error "Error reading response from Sutian"
  | .ok doc => .ok (sutianResults doc)

/-- A JSON tree as `serde_json::Value` presents it to the adapter. -/
inductive Json where
  | null : Json
  | bool (b : Bool) : Json
  | num (n : Int) : Json
  | str (s : String) : Json
  | arr (xs : List Json) : Json
  | obj (fields : List (String × Json)) : Json

/-- `Value::get(key)` on an object (field lookup), `None` otherwise. -/
def Json.getField : Json → String → Option Json
  | .obj fields, key => fields.lookup key
  | _, _ => none

/-- `Value::as_array`. -/
def Json.asArray : Json → Option (List Json)
  | .arr xs => some xs
  | _ => none

/-- `Value::as_str`. -/
def Json.asStr : Json → Option String
  | .str s => some s
  | _ => none

/-- `Value::as_i64`. -/
def Json.asInt : Json → Option Int
  | .num n => some n
  | _ => none

/-- Read a string field with a default (`.and_then(as_str).unwrap_or(d)`). -/
def jStr (item : Json) (key dflt : String) : String :=
  ((item.getField key).bind Json.asStr).getD dflt

/-- Read an integer field with default 0 (`.and_then(as_i64).unwrap_or(0)`). -/
def jInt (item : Json) (key : String) : Int :=
  ((item.getField key).bind Json.asInt).getD 0

/-- One line of the iTaigi primary path: only items whose `新詞文本` array
exists and is non-empty produce a line; each field defaults individually. -/
def itaigiPrimaryLine (item : Json) : Option String :=
  let foreignWord := jStr item "外語資料" "N/A"
  match (item.getField "新詞文本").bind Json.asArray with
  | some newWordList =>
    match newWordList.head? with
    | some firstEntry =>
      let taigiText := jStr firstEntry "文本資料" "N/A"
      let pronunciation := jStr firstEntry "音標資料" "N/A"
      let contributor := jStr firstEntry "貢獻者" "匿名"
      let goodVotes := jInt firstEntry "按呢講好"
      let badVotes := jInt firstEntry "按呢無好"
      let itaigiUrl := "https://itaigi.tw/k/" ++ foreignWord
      some ("🏷️ " ++ foreignWord ++ " → " ++ taigiText ++ " [" ++ pronunciation
        ++ "] (👍" ++ toString goodVotes ++ " 👎" ++ toString badVotes
        ++ ") by " ++ contributor ++ " - " ++ itaigiUrl)
    | none => none
  | none => none

/-- The iTaigi primary path over the `列表` array (first 3 entries). -/
def itaigiPrimary (json : Json) : List String :=
  match (json.getField "列表").bind Json.asArray with
  | some list => (list.take 3).filterMap itaigiPrimaryLine
  | none => []

/-- The foreign words of one fallback suggestion: up to 2 entries of its
`按呢講的外語列表`, keeping only those with a string `外語資料` field. -/
def suggestionForeignWords (suggestion : Json) : List String :=
  match (suggestion.getField "按呢講的外語列表").bind Json.asArray with
  | some foreignList =>
    (foreignList.take 2).filterMap (fun fi => (fi.getField "外語資料").bind Json.asStr)
  | none => []

/-- One line of the iTaigi fallback path; when the suggestion has no foreign
words the original search keyword is displayed instead. -/
def fallbackLine (keyword : String) (suggestion : Json) : String :=
  let taigiText := jStr suggestion "文本資料" "N/A"
  let pronunciation := jStr suggestion "音標資料" "N/A"
  let foreignWords := suggestionForeignWords suggestion
  let foreignDisplay :=
    if foreignWords.isEmpty then keyword else String.intercalate ", " foreignWords
  "🏷️ " ++ foreignDisplay ++ " → " ++ taigiText ++ " [" ++ pronunciation
    ++ "] (建議) - https://itaigi.tw"

/-- The iTaigi fallback path over the `其他建議` array (first 3 entries). -/
def itaigiFallback (keyword : String) (json : Json) : List String :=
  match (json.getField "其他建議").bind Json.asArray with
  | some suggestions => (suggestions.take 3).map (fallbackLine keyword)
  | none => []

/-- Parsing phase of `search_itaigi`: the fallback list is appended only when
the primary path produced no lines (the code checks `results.is_empty()`). -/
def itaigiResults (keyword : String) (json : Json) : List String :=
  let primary := itaigiPrimary json
  if primary.isEmpty then itaigiFallback keyword json else primary

/-- Body of the iTaigi response after the read phase: either not valid JSON,
or a parsed tree. -/
inductive ItaigiBody where
  | parseErr : ItaigiBody
  | json (j : Json) : ItaigiBody

/-- `search_itaigi` over a fetch fixture. -/
def search_itaigi (keyword : String) (fetch : Fetch ItaigiBody) :
    Except String (List String) :=
  match fetch with
  | .netErr => .error "Error fetching from iTaigi"
  | .readErr => .error "Error reading response from iTaigi"
  | .ok .parseErr => .error "Error parsing JSON from iTaigi"
  | .ok (.json j) => .ok (itaigiResults keyword j)

/-- The success list an adapter outcome contributes to the aggregate. -/
def okList (outcome : Except String (List String)) : List String :=
  match outcome with
  | .ok results => results
  | .error _ => []

/-- The error entries an adapter outcome contributes, tagged by source. -/
def errList (source : String) (outcome : Except String (List String)) :
    List String :=
  match outcome with
  | .ok _ => []
  | .error err => [source ++ ": " ++ err]

/-- The fan-in of `Handler::message`: fold the three settled outcomes, in the
fixed order TaigiTV, Sutian, iTaigi, into the cumulative success list and the
cumulative error-message list. -/
def aggregate (taigitvOutcome sutianOutcome itaigiOutcome :
    Except String (List String)) : List String × List String :=
  let step := fun (acc : List String × List String) (source : String)
      (outcome : Except String (List String)) =>
    match outcome with
    | .ok results => (acc.1 ++ results, acc.2)
    | .error err => (acc.1, acc.2 ++ [source ++ ": " ++ err])
  step (step (step ([], []) "TaigiTV" taigitvOutcome) "Sutian" sutianOutcome)
    "iTaigi" itaigiOutcome

/-- Outbound effects of the handler: an adapter invocation (one HTTP GET to
that source), a text message to the channel, or a reaction on the message. -/
inductive BotAction where
  | invokeAdapter (source keyword : String) : BotAction
  | sendText (text : String) : BotAction
  | react (emoji : Char) : BotAction
deriving DecidableEq

/-- The reply step of `Handler::message` over the aggregated outcome. -/
def replyActions (keyword : String) (allResults errorMessages : List String) :
    List BotAction :=
  if !allResults.isEmpty then
    let count := allResults.length
    let resultsText := String.intercalate "\n" allResults
    let responseMessage :=
      if count == 1 then
        "Found 1 result for \"" ++ keyword ++ "\":\n" ++ resultsText
      else
        "Found " ++ toString count ++ " results for \"" ++ keyword ++ "\":\n"
          ++ resultsText
    let finalMessage :=
      if !errorMessages.isEmpty then
        responseMessage ++ "\n\n⚠️ Some sources had issues: "
          ++ String.intercalate ", " errorMessages
      else responseMessage
    [BotAction.sendText finalMessage]
  else if !errorMessages.isEmpty then
    [BotAction.sendText ("Could not search any sources. Errors: "
      ++ String.intercalate ", " errorMessages)]
  else
    [BotAction.react '❌']

def targetChannelId : String := "1372944023026794576"

/-- The upstream world of one request: one fetch fixture per source. -/
structure Fixtures where
  taigitv : Fetch (List Elem)
  sutian : Fetch SutianDoc
  itaigi : Fetch ItaigiBody

/-- `Handler::message`: guard on author/channel, trim the keyword, prompt on
an empty keyword, otherwise fan out to the three adapters (each invocation
performing one HTTP GET), aggregate, and reply. -/
def handlerMessage (authorBot : Bool) (channelId content : String)
    (fx : Fixtures) : List BotAction :=
  if authorBot || channelId != targetChannelId then []
  else
    let keyword := rTrim content
    if keyword == "" then
      [BotAction.sendText "Please provide a keyword to search for."]
    else
      let taigitvOutcome := search_taigitv fx.taigitv
      let sutianOutcome := search_sutian fx.sutian
      let itaigiOutcome := search_itaigi keyword fx.itaigi
      let aggregated := aggregate taigitvOutcome sutianOutcome itaigiOutcome
      [BotAction.invokeAdapter "TaigiTV" keyword,
       BotAction.invokeAdapter "Sutian" keyword,
       BotAction.invokeAdapter "iTaigi" keyword]
        ++ replyActions keyword aggregated.1 aggregated.2

/-- Fixture whose single list item has a wrongly-typed foreign word and a
first text entry with every field missing or wrongly typed. -/
def itaigiDefaultsFixture : Json :=
  Json.obj [("列表", Json.arr [Json.obj [
    ("外語資料", Json.num 7),
    ("新詞文本", Json.arr [Json.obj [
      ("文本資料", Json.null),
      ("貢獻者", Json.arr []),
      ("按呢講好", Json.str "x")]])]])]

/-- Arbitrary fixtures (all three fetches fail); the empty-keyword guard
never reaches them. -/
def blankFx : Fixtures := ⟨Fetch.netErr, Fetch.netErr, Fetch.netErr⟩

/-- A Sutian document where both mobile selectors match. -/
def sutianMobileDoc : SutianDoc :=
  ⟨some ⟨"tshia", some "/m"⟩, some "tshia-pron", none, none⟩

/-- A Sutian document where no mobile selector matches but both desktop
selectors do. -/
def sutianDesktopDoc : SutianDoc :=
  ⟨none, none, some ⟨"word", some "/d"⟩, some "dp"⟩

/-- A Sutian document whose mobile link text is whitespace-only while the
desktop pair would produce a non-empty row. -/
def sutianShadowDoc : SutianDoc :=
  ⟨some ⟨"  ", some "/m"⟩, some "mp", some ⟨"word", some "/d"⟩, some "dp"⟩

theorem strData_append (s t : String) : (s ++ t).data = s.data ++ t.data := by
  cases s; cases t; rfl

theorem isPrefixOf_append_left {α : Type} [BEq α] (p s t : List α)
    (h : p.isPrefixOf s = true) : p.isPrefixOf (s ++ t) = true := by
  induction p generalizing s with
  | nil => simp
  | cons a as ih =>
    cases s with
    | nil => simp at h
    | cons b bs =>
      rw [List.cons_append]
      simp only [List.isPrefixOf_cons₂, Bool.and_eq_true] at h ⊢
      exact ⟨h.1, ih bs h.2⟩

theorem rStartsWith_append (s t pre : String) (h : rStartsWith s pre = true) :
    rStartsWith (s ++ t) pre = true := by
  unfold rStartsWith at h ⊢
  rw [strData_append]
  exact isPrefixOf_append_left _ _ _ h

theorem resolveUrl_absolute (base href : String)
    (hb : rStartsWith base "http" = true) :
    rStartsWith (resolveUrl base href) "http" = true := by
  unfold resolveUrl
  split
  · assumption
  · split
    · exact rStartsWith_append base href _ hb
    · exact rStartsWith_append (base ++ "/") href _ (rStartsWith_append base "/" _ hb)

theorem sutianRow_length (link : Elem) (pronCell : String) :
    (sutianRow link pronCell).length ≤ 1 := by
  simp only [sutianRow]
  split <;> simp

theorem itaigiPrimary_length (json : Json) : (itaigiPrimary json).length ≤ 3 := by
  unfold itaigiPrimary
  split
  · exact le_trans (List.length_filterMap_le _ _) (List.length_take_le _ _)
  · simp

theorem itaigiFallback_length (keyword : String) (json : Json) :
    (itaigiFallback keyword json).length ≤ 3 := by
  unfold itaigiFallback
  split
  · rw [List.length_map]; exact List.length_take_le _ _
  · simp

/-- C1: the reply step over an aggregated outcome is a three-state machine:
with n ≥ 1 successes it emits exactly one text message "Found {n}
result(s) for \"{keyword}\":" followed by the newline-joined result lines,
singular exactly when n = 1, with the warning suffix listing the
comma-joined source/message pairs appended iff the error list is non-empty;
with no successes and some errors it emits exactly one text message
"Could not search any sources. Errors: " with the comma-joined pairs; with
neither it emits no text and exactly one ❌ reaction. -/
theorem c1_reply_state_machine (kw : String) (succ errs : List String) :
    replyActions kw succ errs =
      (if 1 ≤ succ.length then
        [BotAction.sendText
          ((if succ.length = 1 then
              "Found 1 result for \"" ++ kw ++ "\":\n"
                ++ String.intercalate "\n" succ
            else
              "Found " ++ toString succ.length ++ " results for \"" ++ kw
                ++ "\":\n" ++ String.intercalate "\n" succ)
            ++ (if errs = [] then ""
                else "\n\n⚠️ Some sources had issues: "
                  ++ String.intercalate ", " errs))]
      else if errs = [] then [BotAction.react '❌']
      else
        [BotAction.sendText ("Could not search any sources. Errors: "
          ++ String.intercalate ", " errs)]) := by
  rcases succ with _ | ⟨a, as⟩
  · rcases errs with _ | ⟨e, es⟩ <;> simp [replyActions]
  · rcases errs with _ | ⟨e, es⟩ <;> simp [replyActions, String.append_assoc]

/-- C2: a message whose content trims to empty (non-bot author, configured
channel) produces exactly one fixed prompt reply and no adapter invocation,
hence no outbound HTTP call. -/
theorem c2_empty_keyword_short_circuit (content : String) (fx : Fixtures)
    (h : rTrim content = "") :
    handlerMessage false targetChannelId content fx =
      [BotAction.sendText "Please provide a keyword to search for."] := by
  simp [handlerMessage, h]

theorem c2_witness :
    rTrim " " = "" ∧
    handlerMessage false targetChannelId " " blankFx =
      [BotAction.sendText "Please provide a keyword to search for."] :=
  ⟨rfl, c2_empty_keyword_short_circuit " " blankFx rfl⟩

/-- C3: the aggregate success sequence is the TaigiTV list, then the Sutian
list, then the iTaigi list, each in internal order, and the error sequence
lists failed sources in the same fixed order; concatenation performs no
cross-source deduplication, as the duplicate instance shows. -/
theorem c3_aggregation_order (kw : String) (fxT : Fetch (List Elem))
    (fxS : Fetch SutianDoc) (fxI : Fetch ItaigiBody) :
    aggregate (search_taigitv fxT) (search_sutian fxS) (search_itaigi kw fxI) =
      (okList (search_taigitv fxT) ++ okList (search_sutian fxS)
         ++ okList (search_itaigi kw fxI),
       errList "TaigiTV" (search_taigitv fxT)
         ++ errList "Sutian" (search_sutian fxS)
         ++ errList "iTaigi" (search_itaigi kw fxI)) ∧
    aggregate (Except.ok ["dup"]) (Except.ok ["dup"]) (Except.ok ["dup"]) =
      (["dup", "dup", "dup"], []) := by
  constructor
  · cases search_taigitv fxT <;> cases search_sutian fxS <;>
      cases search_itaigi kw fxI <;> simp [aggregate, okList, errList]
  · rfl

/-- C4: over every fixture, Sutian returns at most 1 result line and TaigiTV
and iTaigi each return at most 3. -/
theorem c4_result_caps (kw : String) (fxT : Fetch (List Elem))
    (fxS : Fetch SutianDoc) (fxI : Fetch ItaigiBody) :
    (okList (search_taigitv fxT)).length ≤ 3 ∧
    (okList (search_sutian fxS)).length ≤ 1 ∧
    (okList (search_itaigi kw fxI)).length ≤ 3 := by
  refine ⟨?_, ?_, ?_⟩
  · cases fxT with
    | netErr => simp [search_taigitv, okList]
    | readErr => simp [search_taigitv, okList]
    | ok anchors =>
      simp only [search_taigitv, okList, taigitvResults]
      exact List.length_take_le _ _
  · cases fxS with
    | netErr => simp [search_sutian, okList]
    | readErr => simp [search_sutian, okList]
    | ok doc =>
      simp only [search_sutian, okList]
      rcases doc with ⟨ml, mp, dl, dp⟩
      cases ml <;> cases mp <;> cases dl <;> cases dp <;>
        simp [sutianResults, sutianRow_length]
  · cases fxI with
    | netErr => simp [search_itaigi, okList]
    | readErr => simp [search_itaigi, okList]
    | ok body =>
      cases body with
      | parseErr => simp [search_itaigi, okList]
      | json j =>
        simp only [search_itaigi, okList, itaigiResults]
        split
        · exact itaigiFallback_length _ _
        · exact itaigiPrimary_length _

/-- C5: transport failure and body-read failure yield distinct fixed phrases
naming the source and phase, and with TaigiTV failing at the fetch phase
while Sutian and iTaigi succeed, the aggregated warning list is exactly
["TaigiTV: Error fetching from TaigiTV"]. -/
theorem c5_error_phrases (kw : String) (doc : SutianDoc) (j : Json) :
    search_taigitv Fetch.netErr = Except.error "Error fetching from TaigiTV" ∧
    search_taigitv Fetch.readErr =
      Except.error "Error reading response from TaigiTV" ∧
    search_sutian Fetch.netErr = Except.error "Error fetching from Sutian" ∧
    search_sutian Fetch.readErr =
      Except.error "Error reading response from Sutian" ∧
    search_itaigi kw Fetch.netErr = Except.error "Error fetching from iTaigi" ∧
    search_itaigi kw Fetch.readErr =
      Except.error "Error reading response from iTaigi" ∧
    (aggregate (search_taigitv Fetch.netErr) (search_sutian (Fetch.ok doc))
        (search_itaigi kw (Fetch.ok (ItaigiBody.json j)))).2 =
      ["TaigiTV: Error fetching from TaigiTV"] :=
  ⟨rfl, rfl, rfl, rfl, rfl, rfl, rfl⟩

/-- C6: a successfully fetched and JSON-parsed iTaigi response never yields
an error — missing or wrongly-typed individual fields degrade to their
defaults (the fixture shows N/A, 匿名 and 0), and the only error outcomes
are transport failure, body-read failure and top-level JSON-parse
failure. -/
theorem c6_itaigi_total_on_json (kw : String) (j : Json) :
    (∃ lines, search_itaigi kw (Fetch.ok (ItaigiBody.json j)) =
      Except.ok lines) ∧
    search_itaigi kw Fetch.netErr = Except.error "Error fetching from iTaigi" ∧
    search_itaigi kw Fetch.readErr =
      Except.error "Error reading response from iTaigi" ∧
    search_itaigi kw (Fetch.ok ItaigiBody.parseErr) =
      Except.error "Error parsing JSON from iTaigi" ∧
    search_itaigi kw (Fetch.ok (ItaigiBody.json itaigiDefaultsFixture)) =
      Except.ok ["🏷️ N/A → N/A [N/A] (👍0 👎0) by 匿名 - https://itaigi.tw/k/N/A"] :=
  ⟨⟨itaigiResults kw j, rfl⟩, rfl, rfl, rfl, rfl⟩

/-- C7: the fallback array is consulted exactly when the primary path over
the 列表 array produced zero lines, and a fallback suggestion with no
foreign words displays the original search keyword as the subject. -/
theorem c7_itaigi_fallback_gate (kw : String) (j : Json) :
    search_itaigi kw (Fetch.ok (ItaigiBody.json j)) =
      Except.ok (if (itaigiPrimary j).isEmpty then itaigiFallback kw j
        else itaigiPrimary j) ∧
    (∀ s : Json, suggestionForeignWords s = [] →
      fallbackLine kw s =
        "🏷️ " ++ kw ++ " → " ++ jStr s "文本資料" "N/A" ++ " ["
          ++ jStr s "音標資料" "N/A" ++ "] (建議) - https://itaigi.tw") := by
  constructor
  · rfl
  · intro s h
    simp [fallbackLine, h]

theorem c7_witness :
    fallbackLine "tea" (Json.obj []) =
      "🏷️ tea → N/A [N/A] (建議) - https://itaigi.tw" := by
  have h := (c7_itaigi_fallback_gate "tea" (Json.obj [])).2 (Json.obj []) rfl
  exact h.trans rfl

/-- C8: the desktop pair is consulted only when the mobile pair did not
match, and a row is emitted only when both the trimmed word and the trimmed
first line of the pronunciation cell are non-empty. -/
theorem c8_sutian_shape_and_row (doc : SutianDoc) (link : Elem)
    (pronCell : String) :
    (∀ l p, doc.mobileLink = some l → doc.mobilePron = some p →
      sutianResults doc = sutianRow l p) ∧
    (doc.mobileLink = none ∨ doc.mobilePron = none →
      sutianResults doc =
        match doc.desktopLink, doc.desktopPron with
        | some l, some p => sutianRow l p
        | _, _ => []) ∧
    sutianRow link pronCell =
      (if rTrim link.text ≠ "" ∧ rTrim (firstLine (rTrim pronCell)) ≠ "" then
        ["📚 " ++ rTrim link.text ++ " [" ++ rTrim (firstLine (rTrim pronCell))
          ++ "] - " ++ resolveUrl sutianBase (link.href.getD "")]
      else []) := by
  refine ⟨?_, ?_, rfl⟩
  · intro l p hl hp
    simp [sutianResults, hl, hp]
  · intro h
    rcases h with h | h <;>
      rcases hm : doc.mobileLink with _ | l <;>
        rcases hp : doc.mobilePron with _ | p <;>
          simp_all [sutianResults]

theorem c8_witness :
    sutianResults sutianMobileDoc = sutianRow ⟨"tshia", some "/m"⟩ "tshia-pron" ∧
    sutianResults sutianDesktopDoc = sutianRow ⟨"word", some "/d"⟩ "dp" := by
  constructor
  · exact (c8_sutian_shape_and_row sutianMobileDoc ⟨"", none⟩ "").1 _ _ rfl rfl
  · exact (c8_sutian_shape_and_row sutianDesktopDoc ⟨"", none⟩ "").2.1
      (Or.inl rfl)

/-- C9: URL resolution is total over the three branches (scheme prefix,
root-relative slash, otherwise), and the resolved URL over either site base
always carries an absolute http prefix. -/
theorem c9_url_resolution_total (base href : String) :
    (rStartsWith href "http" = true → resolveUrl base href = href) ∧
    (rStartsWith href "http" = false → rStartsWith href "/" = true →
      resolveUrl base href = base ++ href) ∧
    (rStartsWith href "http" = false → rStartsWith href "/" = false →
      resolveUrl base href = base ++ "/" ++ href) ∧
    rStartsWith (resolveUrl taigitvBase href) "http" = true ∧
    rStartsWith (resolveUrl sutianBase href) "http" = true := by
  refine ⟨?_, ?_, ?_, resolveUrl_absolute _ _ (by decide),
    resolveUrl_absolute _ _ (by decide)⟩
  · intro h; simp [resolveUrl, h]
  · intro h1 h2; simp [resolveUrl, h1, h2]
  · intro h1 h2; simp [resolveUrl, h1, h2]

theorem c9_witness :
    resolveUrl taigitvBase "http://e.com/x" = "http://e.com/x" ∧
    resolveUrl taigitvBase "/p" = taigitvBase ++ "/p" ∧
    resolveUrl sutianBase "p" = sutianBase ++ "/" ++ "p" :=
  ⟨(c9_url_resolution_total taigitvBase "http://e.com/x").1 (by decide),
   (c9_url_resolution_total taigitvBase "/p").2.1 (by decide) (by decide),
   (c9_url_resolution_total sutianBase "p").2.2.1 (by decide) (by decide)⟩

/-- C10: when both mobile selectors match but the trimmed word or the
trimmed first-line pronunciation is empty, the adapter returns Ok [] and the
desktop pair is never consulted. -/
theorem c10_mobile_empty_shadows_desktop (doc : SutianDoc) (l : Elem)
    (p : String) (hl : doc.mobileLink = some l) (hp : doc.mobilePron = some p)
    (hempty : rTrim l.text = "" ∨ rTrim (firstLine (rTrim p)) = "") :
    search_sutian (Fetch.ok doc) = Except.ok [] := by
  have hrow : sutianRow l p = [] := by
    simp only [sutianRow]
    rcases hempty with h | h <;> simp [h]
  simp [search_sutian, sutianResults, hl, hp, hrow]

theorem c10_witness :
    search_sutian (Fetch.ok sutianShadowDoc) = Except.ok [] ∧
    sutianRow ⟨"word", some "/d"⟩ "dp" ≠ [] := by
  constructor
  · exact c10_mobile_empty_shadows_desktop sutianShadowDoc ⟨"  ", some "/m"⟩
      "mp" rfl rfl (Or.inl (by decide))
  · decide
